import Mathlib

/-!
Shallow embedding of the bula-portal payment/activation pipeline.

The JavaScript source is embedded as executable Lean definitions:
pure helpers become Lean functions, the MySQL tables become lists of
row structures inside a `DB` record, and each route handler becomes a
function from the database (plus oracles for the external HTTP calls)
to the new database together with a trace of external calls.
-/

namespace Bula

/-! ### Decimal rendering of numbers (JS `String(n)` / template literals) -/

/-- Character for the decimal digit `n % 10`. -/
def natDigitChar (n : Nat) : Char := Char.ofNat (48 + n % 10)

/-- Fuel-indexed digit list of a natural number, most significant first.
Fuel `n + 1` always suffices because the argument shrinks by division. -/
def natToDigitsAux : Nat → Nat → List Char
  | 0, _ => []
  | fuel + 1, n =>
    if n < 10 then [natDigitChar n]
    else natToDigitsAux fuel (n / 10) ++ [natDigitChar n]

/-- Decimal digits of `n`, most significant first. -/
def natToDigits (n : Nat) : List Char := natToDigitsAux (n + 1) n

/-- Decimal rendering of a natural number, as JS renders a nonnegative
integer with `String(n)` or a template literal. -/
def natToString (n : Nat) : String := String.mk (natToDigits n)

/-- Decimal rendering of an integer, as JS renders an integer number. -/
def intToString (n : Int) : String :=
  if n < 0 then "-" ++ natToString n.natAbs else natToString n.toNat

/-! ### Expiration codec (`radiusExpiration` / `parseRadiusExpiration`) -/

/-- A JS `Date` reduced to its local-time fields at whole-second
precision; `month` is 0-based exactly as `Date.getMonth()`.  We never
model the calendar normalisation a JS `Date` constructor performs on
out-of-range fields: every claim only exercises in-range fields, where
the constructor is the identity on the fields. -/
structure JsDate where
  year : Nat
  month : Nat
  day : Nat
  hour : Nat
  minute : Nat
  second : Nat
deriving DecidableEq, Repr

/-- The month-abbreviation table of `radiusExpiration`. -/
def months : List String :=
  ["Jan", "Feb", "Mar", "Apr", "May", "Jun",
   "Jul", "Aug", "Sep", "Oct", "Nov", "Dec"]

/-- `String(n).padStart(2, "0")`. -/
def pad2 (n : Nat) : String :=
  let s := natToString n
  if s.length < 2 then "0" ++ s else s

/-- `radiusExpiration(d)`: renders `"DD Mon YYYY HH:MM:SS"` from the
local-time fields of the date.  JS `months[d.getMonth()]` yields
`undefined` out of range, which a template literal prints as the word
below. -/
def radiusExpiration (d : JsDate) : String :=
  pad2 d.day ++ " " ++ months.getD d.month "undefined" ++ " " ++ natToString d.year
    ++ " " ++ pad2 d.hour ++ ":" ++ pad2 d.minute ++ ":" ++ pad2 d.second

/-- `\d` of the fixed-format regex. -/
def isDigitChar (c : Char) : Bool := 48 ≤ c.toNat && c.toNat ≤ 57

/-- `\w` of the fixed-format regex. -/
def isWordChar (c : Char) : Bool := c.isAlphanum || c = '_'

/-- Numeric value of a digit character (`parseInt` on one digit). -/
def digitVal (c : Char) : Nat := c.toNat - 48

/-- `parseInt` on a two-digit capture group. -/
def val2 (a b : Char) : Nat := 10 * digitVal a + digitVal b

/-- `parseInt` on the four-digit year capture group. -/
def val4 (a b c d : Char) : Nat :=
  1000 * digitVal a + 100 * digitVal b + 10 * digitVal c + digitVal d

/-- The regex `^(\d{2}) (\w{3}) (\d{4}) (\d{2}):(\d{2}):(\d{2})$` of
`parseRadiusExpiration` on the character list of the string. -/
def matchFixedFormatList : List Char → Option (Nat × String × Nat × Nat × Nat × Nat)
  | [d1, d2, ' ', w1, w2, w3, ' ', y1, y2, y3, y4, ' ',
     h1, h2, ':', m1, m2, ':', s1, s2] =>
    if isDigitChar d1 && isDigitChar d2 &&
       isWordChar w1 && isWordChar w2 && isWordChar w3 &&
       isDigitChar y1 && isDigitChar y2 && isDigitChar y3 && isDigitChar y4 &&
       isDigitChar h1 && isDigitChar h2 && isDigitChar m1 && isDigitChar m2 &&
       isDigitChar s1 && isDigitChar s2 then
      some (val2 d1 d2, String.mk [w1, w2, w3], val4 y1 y2 y3 y4,
            val2 h1 h2, val2 m1 m2, val2 s1 s2)
    else none
  | _ => none

/-- The regex of `parseRadiusExpiration`, returning the captured day,
month word, year, hour, minute and second. -/
def matchFixedFormat (s : String) : Option (Nat × String × Nat × Nat × Nat × Nat) :=
  matchFixedFormatList s.data

/-- The `months` lookup object of `parseRadiusExpiration`
(`{Jan:0, ..., Dec:11}`); `none` models `undefined`. -/
def monthIndex (s : String) : Option Nat := months.indexOf? s

/-- The fixed-format branch of `parseRadiusExpiration`: a date is
produced only when the regex matches and the month abbreviation is in
the table; both failure modes fall through to the generic fallback. -/
def fixedFormatParse (s : String) : Option JsDate :=
  match matchFixedFormat s with
  | some (day, mon, year, hh, mm, ss) =>
    match monthIndex mon with
    | some m => some ⟨year, m, day, hh, mm, ss⟩
    | none => none
  | none => none

/-- `parseRadiusExpiration(str)`: `null` on falsy input, the fixed
format when it matches with a known month, otherwise the generic
`new Date(str)` fallback, abstracted as the `fallback` parameter
(`none` models a result whose time is `NaN`). -/
def parseRadiusExpiration (fallback : String → Option JsDate) (s : String) :
    Option JsDate :=
  if s = "" then none
  else
    match fixedFormatParse s with
    | some d => some d
    | none => fallback s

/-! ### MAC normalisation (`normalizeMacAddress`) -/

/-- Hex characters kept by the `[^a-fA-F0-9]` strip. -/
def isHexChar (c : Char) : Bool :=
  ('a' ≤ c && c ≤ 'f') || ('A' ≤ c && c ≤ 'F') || ('0' ≤ c && c ≤ '9')

/-- `.match(/.{2}/g)` on an even-length cleaned MAC. -/
def chunkPairs : List Char → List String
  | a :: b :: rest => String.mk [a, b] :: chunkPairs rest
  | _ => []

/-- `normalizeMacAddress(mac)`: strip non-hex characters, require
exactly 12 hex digits, uppercase and join in pairs with `:`. -/
def normalizeMacAddress (mac : String) : Option String :=
  if mac = "" then none
  else
    let cleaned := mac.data.filter isHexChar
    if cleaned.length ≠ 12 then none
    else some (String.intercalate ":" (chunkPairs (cleaned.map Char.toUpper)))

/-! ### RADIUS attribute writer (`activateVoucher`) -/

/-- A JS value handed to `setRadcheck`/`setRadreply` (the SQL layer
stringifies it with `String(value)`). -/
inductive JsVal where
  | num (n : Int)
  | str (s : String)
deriving DecidableEq, Repr

/-- One row upserted into `radcheck` or `radreply`; `attr` embeds the
`attribute` column (whose name is reserved in Lean). -/
structure AttrWrite where
  table : String
  username : String
  attr : String
  op : String
  value : JsVal
deriving DecidableEq, Repr

/-- The object returned by `activateVoucher`. -/
structure ActivationResult where
  username : String
  sessionSeconds : Int
  expirationValue : String
  speedDownKbps : Option Int
  speedUpKbps : Option Int
  dataMb : Option Int
deriving DecidableEq, Repr

/-- JS truthiness of an optional number (`undefined`, `null` and `0`
are falsy). -/
def jsTruthyN : Option Int → Bool
  | none => false
  | some n => n != 0

/-- JS truthiness of an optional string (`undefined`, `null` and `""`
are falsy). -/
def jsTruthyS : Option String → Bool
  | none => false
  | some s => s != ""

/-- The legacy rate regex `^(\d+)k\/(\d+)k$`. -/
def parseLegacyRate (r : String) : Option (Nat × Nat) :=
  let cs := r.data
  let ds := cs.takeWhile isDigitChar
  let rest := cs.drop ds.length
  match rest with
  | 'k' :: '/' :: rest2 =>
    let us := rest2.takeWhile isDigitChar
    let rest3 := rest2.drop us.length
    if ds ≠ [] && us ≠ [] && rest3 = ['k'] then
      some ((ds.map digitVal).foldl (fun a d => 10 * a + d) 0,
            (us.map digitVal).foldl (fun a d => 10 * a + d) 0)
    else none
  | _ => none

/-- `activateVoucher({username, password, minutes, speedDownKbps,
speedUpKbps, dataMb, rate})`.  `localTime` abstracts the conversion of
an epoch-milliseconds instant to the server's local-time fields (the
JS `new Date(ms)` + getters); `now` is `Date.now()` in milliseconds.
Returns the list of attribute upserts performed and the result object,
or the thrown `Error` message. -/
def activateVoucher (localTime : Int → JsDate) (now : Int)
    (username password : String) (minutes speedDownKbps speedUpKbps dataMb : Option Int)
    (rate : Option String) :
    Except String (List AttrWrite × ActivationResult) :=
  if username = "" || password = "" || !jsTruthyN minutes then
    .error "activateVoucher requires username, password, minutes"
  else
    let sessionSeconds : Int := minutes.getD 0 * 60
    let expiresAt := localTime (now + sessionSeconds * 1000)
    let expStr := radiusExpiration expiresAt
    let base : List AttrWrite :=
      [⟨"radcheck", username, "Cleartext-Password", ":=", .str password⟩,
       ⟨"radreply", username, "Expiration", ":=", .str expStr⟩,
       ⟨"radreply", username, "Session-Timeout", ":=", .num sessionSeconds⟩,
       ⟨"radreply", username, "Idle-Timeout", ":=", .num 300⟩]
    let dkuk : Option Int × Option Int :=
      match rate with
      | some r =>
        if !jsTruthyN speedDownKbps && !jsTruthyN speedUpKbps then
          match parseLegacyRate r with
          | some (d, u) => (some (d : Int), some (u : Int))
          | none => (speedDownKbps, speedUpKbps)
        else (speedDownKbps, speedUpKbps)
      | none => (speedDownKbps, speedUpKbps)
    let downKbps := dkuk.1
    let upKbps := dkuk.2
    let speedWrites : List AttrWrite :=
      if jsTruthyN downKbps && jsTruthyN upKbps then
        let d := downKbps.getD 0
        let u := upKbps.getD 0
        [⟨"radreply", username, "Mikrotik-Rate-Limit", ":=",
          .str (intToString d ++ "k/" ++ intToString u ++ "k")⟩,
         ⟨"radreply", username, "WISPr-Bandwidth-Max-Down", ":=", .num (d * 1000)⟩,
         ⟨"radreply", username, "WISPr-Bandwidth-Max-Up", ":=", .num (u * 1000)⟩]
      else []
    let dataWrites : List AttrWrite :=
      if jsTruthyN dataMb && dataMb.getD 0 > 0 then
        [⟨"radreply", username, "Mikrotik-Total-Limit", ":=",
          .num (dataMb.getD 0 * 1024 * 1024)⟩]
      else []
    .ok (base ++ speedWrites ++ dataWrites,
         ⟨username, sessionSeconds, expStr, downKbps, upKbps, dataMb⟩)

/-! ### Database rows

Statuses are kept as the literal strings the source compares against
(`"PENDING"`, `"PAID"`, `"FAILED"`, `"COMPLETED"` on orders;
`"ACTIVE"`, `"USED"`, `"DISABLED"` on vouchers).  All timestamps are
epoch milliseconds (`Date.now()`). -/

structure OrderRow where
  id : Nat
  order_ref : String
  status : String
  amount_ugx : Int
  plan_id : Nat
  username : String
  password : String
  provider : Option String
  provider_tx_id : Option String
  provider_ref : Option String
  paid_at : Option Nat
  customer_mac : Option String
  customer_ip : Option String
  autologin_status : Option String
  autologin_message : Option String
deriving DecidableEq, Repr

structure PlanRow where
  id : Nat
  name : String
  duration_minutes : Option Int
  speed_down_kbps : Option Int
  speed_up_kbps : Option Int
  data_mb : Option Int
deriving DecidableEq, Repr

structure VoucherRow where
  id : Nat
  code : String
  status : String
  expires_at : Option Nat
  used_at : Option Nat
  plan_id : Option Nat
deriving DecidableEq, Repr

/-- A `voucher_usage` row (the usage ledger; `voucher_code` carries a
UNIQUE constraint). -/
structure UsageRow where
  voucher_code : String
  voucher_source : String
  source_id : Nat
  used_at : Nat
  used_by_ip : Option String
deriving DecidableEq, Repr

/-- A `flagged_ips` row (the persisted block list). -/
structure FlaggedIp where
  ip_address : String
  reason : String
  failed_attempts : Nat
  flagged_at : Nat
  blocked_until : Option Nat
  is_permanent : Bool
deriving DecidableEq, Repr

/-- A RADIUS accounting row; `acctstoptime = none` is an open
(active) session. -/
structure AcctRow where
  username : String
  acctstarttime : Nat
  acctstoptime : Option Nat
deriving DecidableEq, Repr

/-- An entry of the in-memory `rateLimitStore`/`failedAttemptsStore`
maps. -/
structure RateEntry where
  windowStart : Nat
  count : Nat
deriving DecidableEq, Repr

/-- A `voucher_security_logs` row, reduced to the event type and
severity. -/
structure SecLog where
  event_type : String
  severity : String
deriving DecidableEq, Repr

/-- A `payment_logs` row, reduced to the reference and status. -/
structure PayLog where
  transaction_ref : String
  status : String
deriving DecidableEq, Repr

/-- The persistent portal/RADIUS tables together with the process-local
maps of the voucher security service. -/
structure DB where
  vouchers : List VoucherRow
  orders : List OrderRow
  plans : List PlanRow
  voucher_usage : List UsageRow
  flagged_ips : List FlaggedIp
  radacct : List AcctRow
  payment_logs : List PayLog
  rateLimitStore : List (String × RateEntry)
  failedAttemptsStore : List (String × RateEntry)
  lockedOutIps : List (String × Nat)
  securityLogs : List SecLog
deriving DecidableEq, Repr

/-- `Map.get` on an association list. -/
def alGet {α : Type} (m : List (String × α)) (k : String) : Option α :=
  (m.find? (fun p => p.1 == k)).map (fun p => p.2)

/-- `Map.set` on an association list. -/
def alSet {α : Type} (m : List (String × α)) (k : String) (v : α) :
    List (String × α) :=
  (k, v) :: m.filter (fun p => p.1 != k)

/-- `Map.delete` on an association list. -/
def alDel {α : Type} (m : List (String × α)) (k : String) : List (String × α) :=
  m.filter (fun p => p.1 != k)

/-! ### Voucher security service -/

/-- 1 minute window. -/
def RATE_LIMIT_WINDOW_MS : Nat := 60 * 1000
/-- Max 10 attempts per minute. -/
def MAX_ATTEMPTS_PER_WINDOW : Nat := 10
/-- Lock out after 30 failed attempts in 5 minutes. -/
def LOCKOUT_THRESHOLD : Nat := 30
/-- 5 minute window for lockout tracking. -/
def LOCKOUT_WINDOW_MS : Nat := 5 * 60 * 1000
/-- 15 minute lockout. -/
def LOCKOUT_DURATION_MS : Nat := 15 * 60 * 1000

/-- Append a security-log row (`logSecurityEvent`). -/
def logSecurityEvent (st : DB) (eventType severity : String) : DB :=
  { st with securityLogs := st.securityLogs ++ [⟨eventType, severity⟩] }

/-- The object returned by `checkRateLimit`. -/
structure RateCheck where
  allowed : Bool
  remaining : Nat
  retryAfter : Nat
  locked : Bool
deriving DecidableEq, Repr

/-- `Math.ceil(x / 1000)` for nonnegative `x`. -/
def ceilDiv1000 (x : Nat) : Nat := (x + 999) / 1000

/-- The fixed-window part of `checkRateLimit` (after the lockout
check). Time is assumed monotone: `entry.windowStart ≤ now`. -/
def rateWindowStep (now : Nat) (key : String) (st : DB) : RateCheck × DB :=
  let entry :=
    match alGet st.rateLimitStore key with
    | some e => if now - e.windowStart > RATE_LIMIT_WINDOW_MS then
        ({ windowStart := now, count := 0 } : RateEntry) else e
    | none => { windowStart := now, count := 0 }
  let entry := { entry with count := entry.count + 1 }
  let st := { st with rateLimitStore := alSet st.rateLimitStore key entry }
  let allowed := entry.count ≤ MAX_ATTEMPTS_PER_WINDOW
  ({ allowed := allowed,
     remaining := MAX_ATTEMPTS_PER_WINDOW - entry.count,
     retryAfter := if allowed then 0
       else ceilDiv1000 (entry.windowStart + RATE_LIMIT_WINDOW_MS - now),
     locked := false }, st)

/-- `checkRateLimit(ipAddress)`. -/
def checkRateLimit (now : Nat) (ip : String) (st : DB) : RateCheck × DB :=
  let key := "rate_" ++ ip
  match alGet st.lockedOutIps ip with
  | some lockoutEnd =>
    if now < lockoutEnd then
      ({ allowed := false, remaining := 0,
         retryAfter := ceilDiv1000 (lockoutEnd - now), locked := true }, st)
    else
      rateWindowStep now key { st with lockedOutIps := alDel st.lockedOutIps ip }
  | none => rateWindowStep now key st

/-- The object returned by `trackFailedAttempt`. -/
structure TrackResult where
  lockedOut : Bool
  failedCount : Nat
deriving DecidableEq, Repr

/-- `trackFailedAttempt(ipAddress)`. -/
def trackFailedAttempt (now : Nat) (ip : String) (st : DB) : TrackResult × DB :=
  let key := "failed_" ++ ip
  let entry :=
    match alGet st.failedAttemptsStore key with
    | some e => if now - e.windowStart > LOCKOUT_WINDOW_MS then
        ({ windowStart := now, count := 0 } : RateEntry) else e
    | none => { windowStart := now, count := 0 }
  let entry := { entry with count := entry.count + 1 }
  let st := { st with failedAttemptsStore := alSet st.failedAttemptsStore key entry }
  if entry.count ≥ LOCKOUT_THRESHOLD then
    ({ lockedOut := true, failedCount := entry.count },
     { st with lockedOutIps := alSet st.lockedOutIps ip (now + LOCKOUT_DURATION_MS) })
  else
    ({ lockedOut := false, failedCount := entry.count }, st)

/-- The object returned by `isIpBlocked`. -/
structure BlockCheck where
  blocked : Bool
  reason : Option String
deriving DecidableEq, Repr

/-- The SQL predicate of `isIpBlocked`:
`ip_address = ? AND (is_permanent = 1 OR blocked_until > NOW())`. -/
def flaggedMatches (now : Nat) (ip : String) (f : FlaggedIp) : Bool :=
  f.ip_address == ip &&
    (f.is_permanent ||
      match f.blocked_until with
      | some b => decide (now < b)
      | none => false)

/-- `isIpBlocked(ipAddress)`: a thrown query (`qFails`) is caught and
reported as not blocked. -/
def isIpBlocked (qFails : Bool) (now : Nat) (st : DB) (ip : String) : BlockCheck :=
  if qFails then { blocked := false, reason := none }
  else
    match st.flagged_ips.find? (flaggedMatches now ip) with
    | some f => { blocked := true, reason := some f.reason }
    | none => { blocked := false, reason := none }

/-- `flagIpAddress(ipAddress, reason, blockDurationMinutes)`: upsert
into `flagged_ips` (UNIQUE on `ip_address`) and log a critical
`ip_locked` event. -/
def flagIpAddress (now : Nat) (ip reason : String) (blockDurationMinutes : Nat)
    (st : DB) : DB :=
  let blockedUntil := now + blockDurationMinutes * 60 * 1000
  let st :=
    if st.flagged_ips.any (fun f => f.ip_address == ip) then
      { st with flagged_ips := st.flagged_ips.map (fun f =>
          if f.ip_address == ip then
            { f with reason := reason, failed_attempts := f.failed_attempts + 1,
                     blocked_until := some blockedUntil, flagged_at := now }
          else f) }
    else
      { st with flagged_ips := st.flagged_ips ++
          [⟨ip, reason, 1, now, some blockedUntil, false⟩] }
  logSecurityEvent st "ip_locked" "critical"

/-- The object returned by `checkVoucherUsed`. -/
structure UsedCheck where
  used : Bool
  source : Option String
deriving DecidableEq, Repr

/-- `checkVoucherUsed(voucherCode)`: the usage ledger first, then
RADIUS accounting; any thrown query is caught and reported as unused
(`uFails` fails the `voucher_usage` query, `aFails` the `radacct`
one). -/
def checkVoucherUsed (uFails aFails : Bool) (st : DB) (code : String) : UsedCheck :=
  if uFails then { used := false, source := none }
  else
    match st.voucher_usage.find? (fun u => u.voucher_code == code) with
    | some _ => { used := true, source := some "usage_table" }
    | none =>
      if aFails then { used := false, source := none }
      else
        if (st.radacct.filter (fun a => a.username == code)).length > 0 then
          { used := true, source := some "radius_accounting" }
        else { used := false, source := none }

/-- The object returned by `hasActiveSession`. -/
structure SessCheck where
  active : Bool
deriving DecidableEq, Repr

/-- `hasActiveSession(voucherCode)`: any open accounting session; a
thrown query is caught and reported as inactive. -/
def hasActiveSession (qFails : Bool) (st : DB) (code : String) : SessCheck :=
  if qFails then { active := false }
  else
    match st.radacct.find? (fun a => a.username == code && a.acctstoptime == none) with
    | some _ => { active := true }
    | none => { active := false }

/-- `markVoucherUsed(voucherCode, source, sourceId, metadata)`: upsert
the usage ledger, flip the source row's status (`vouchers` rows become
`USED`; `orders` rows become `COMPLETED` only when currently `PAID`),
and log. -/
def markVoucherUsed (now : Nat) (st : DB) (code source : String) (sourceId : Nat)
    (ip : Option String) : Bool × DB :=
  let newUsage :=
    if st.voucher_usage.any (fun u => u.voucher_code == code) then
      st.voucher_usage.map (fun u =>
        if u.voucher_code == code then
          { u with used_at := now,
                   used_by_ip := (match ip with | some i => some i | none => u.used_by_ip) }
        else u)
    else st.voucher_usage ++ [⟨code, source, sourceId, now, ip⟩]
  -- the source branches are mutually exclusive, so the two sequential
  -- UPDATEs amount to updating each table under its own condition
  let newVouchers :=
    if source == "vouchers" then
      st.vouchers.map (fun v =>
        if v.id == sourceId then { v with status := "USED", used_at := some now }
        else v)
    else st.vouchers
  let newOrders :=
    if source == "orders" then
      st.orders.map (fun o =>
        if o.id == sourceId && o.status == "PAID" then { o with status := "COMPLETED" }
        else o)
    else st.orders
  (true, { st with voucher_usage := newUsage, vouchers := newVouchers,
                   orders := newOrders,
                   securityLogs := st.securityLogs ++ [⟨"voucher_used", "info"⟩] })

/-- Which of the guarded database reads throw, for the fail-open
analysis; `noFaults` is the ordinary run. -/
structure Faults where
  blockQ : Bool
  usageQ : Bool
  acctQ : Bool
  sessQ : Bool
deriving DecidableEq, Repr

def noFaults : Faults := ⟨false, false, false, false⟩

/-- The result object of `validateVoucherSecure`, flattening the
`security` sub-object. -/
structure VResult where
  valid : Bool
  rateLimited : Bool
  ipBlocked : Bool
  alreadyUsed : Bool
  activeSession : Bool
  message : String
  voucherSource : Option String
  voucherSourceId : Option Nat
deriving DecidableEq, Repr

/-- The all-false result the function starts from. -/
def emptyVResult : VResult :=
  ⟨false, false, false, false, false, "", none, none⟩

/-- The SQL predicate of the secondary (orders) lookup:
`username = ? AND status IN ('PAID','COMPLETED')`. -/
def orderCodeMatches (code : String) (o : OrderRow) : Bool :=
  o.username == code && (o.status == "PAID" || o.status == "COMPLETED")

/-- Steps 6-8 of `validateVoucherSecure` (usage ledger, active
session, success), shared by the vouchers and orders branches. -/
def validateTail (f : Faults) (now : Nat) (st : DB) (code : String)
    (sourceId : Nat) (source : String) : VResult × DB :=
  -- 6. usage ledger / accounting
  let usageCheck := checkVoucherUsed f.usageQ f.acctQ st code
  if usageCheck.used then
    ({ emptyVResult with alreadyUsed := true,
                         message := "This voucher has already been used" },
     logSecurityEvent st "multiple_use_attempt" "warning")
  else
    -- 7. active session
    let sessionCheck := hasActiveSession f.sessQ st code
    if sessionCheck.active then
      ({ emptyVResult with activeSession := true,
                           message := "This voucher is currently in use" },
       logSecurityEvent st "validation_failed" "info")
    else
      -- 8. valid
      ({ emptyVResult with valid := true, message := "Voucher is valid",
                           voucherSource := some source,
                           voucherSourceId := some sourceId },
       logSecurityEvent st "validation_success" "info")

/-- `validateVoucherSecure(voucherCode, clientInfo)`: the eight-step
security gate, returning the result object and the mutated state. -/
def validateVoucherSecure (f : Faults) (now : Nat) (st : DB) (code ip : String) :
    VResult × DB :=
  -- 1. persisted block list
  let blockCheck := isIpBlocked f.blockQ now st ip
  if blockCheck.blocked then
    ({ emptyVResult with ipBlocked := true,
                         message := "Access denied. Please contact support." },
     logSecurityEvent st "validation_attempt" "warning")
  else
    -- 2. rate limit
    let rc := checkRateLimit now ip st
    let rateCheck := rc.1
    let st := rc.2
    if !rateCheck.allowed then
      ({ emptyVResult with rateLimited := true,
                           message := "Rate limit exceeded" },
       logSecurityEvent st "rate_limit_exceeded" "warning")
    else
      -- 3. primary (vouchers) then secondary (orders) lookup
      let vRow := st.vouchers.find? (fun v => v.code == code)
      let oRow := st.orders.find? (orderCodeMatches code)
      match vRow, oRow with
      | none, none =>
        -- 4. not found: track, possibly lock out and flag
        let tr := trackFailedAttempt now ip st
        let st := logSecurityEvent tr.2 "validation_failed"
          (if tr.1.lockedOut then "critical" else "warning")
        if tr.1.lockedOut then
          ({ emptyVResult with
               ipBlocked := true,
               message := "Too many failed attempts. Access temporarily blocked." },
           flagIpAddress now ip "Too many failed voucher validation attempts" 60 st)
        else
          ({ emptyVResult with message := "Voucher code not found" }, st)
      | some v, _ =>
        -- 5. vouchers-table status checks
        if v.status == "DISABLED" then
          ({ emptyVResult with message := "This voucher has been disabled" },
           logSecurityEvent st "validation_failed" "info")
        else if v.status == "USED" then
          ({ emptyVResult with
               alreadyUsed := true,
               message := "This voucher has already been used" },
           logSecurityEvent st "multiple_use_attempt" "warning")
        else if (match v.expires_at with
                 | some e => decide (e < now)
                 | none => false) then
          ({ emptyVResult with message := "This voucher has expired" },
           logSecurityEvent st "validation_failed" "info")
        else
          validateTail f now st code v.id "vouchers"
      | none, some o =>
        validateTail f now st code o.id "orders"

/-! ### Payment confirmation pipeline

Each route handler becomes a function of the database plus oracles for
the external calls (the provider verification HTTP call, the MikroTik
outcome); it returns the new database and the trace of external calls
made.  RADIUS attribute writes live in the external RADIUS store, so
an activation appears in the trace rather than in `DB`. -/

/-- The `data` object of a Flutterwave `/verify` response. -/
structure VerifyData where
  status : String
  tx_ref : String
  currency : String
  amount : Int
deriving DecidableEq, Repr

/-- External calls a handler can make. -/
inductive ExtCall where
  | verifyCall (txId : String) (result : Option VerifyData)
  | activate (username password : String) (minutes down upBw dataMb : Option Int)
  | mikrotikAuth (mac : String)
  | statusCheck (ref : String) (paymentStatus : String)
deriving DecidableEq, Repr

/-- Whether an external call is a RADIUS activation. -/
def ExtCall.isActivate : ExtCall → Bool
  | .activate .. => true
  | _ => false

/-- Whether an external call is a server-to-server re-verification
with the provider (Flutterwave verify or Yo status check). -/
def ExtCall.isReverify : ExtCall → Bool
  | .verifyCall .. => true
  | .statusCheck .. => true
  | _ => false

/-- `updatePaymentLog(transactionRef, status, ...)`. -/
def updatePaymentLog (st : DB) (ref status : String) : DB :=
  { st with payment_logs := st.payment_logs.map (fun p =>
      if p.transaction_ref == ref then { p with status := status } else p) }

/-- The comparison the Flutterwave webhook makes between the verified
data and the order (mismatch returns without mutating). -/
def flwVerifyMatches (vd : VerifyData) (orderRef : String) (order : OrderRow) : Bool :=
  vd.status == "successful" && vd.tx_ref == orderRef &&
    vd.currency == "UGX" && vd.amount == order.amount_ugx

/-- The WHERE clause of the webhook's mark-paid statement
(`UPDATE orders SET status="PAID", ... WHERE order_ref=?`): it matches
on the reference alone, not on the current status. -/
def flwPaidUpdateApplies (ref : String) (o : OrderRow) : Bool :=
  o.order_ref == ref

/-- Modelled from the spec: the conditional PAID-transition update of
§4.5 step 5 / §5 ("transition only if current status is still
PENDING").  This guarded WHERE clause exists nowhere in the source; it
is stated only to compare against `flwPaidUpdateApplies`. -/
def guardedPaidUpdateApplies (ref : String) (o : OrderRow) : Bool :=
  o.order_ref == ref && o.status == "PENDING"

/-- The row update of the webhook's mark-paid statement. -/
def applyFlwPaid (now : Nat) (txId ref : String) (o : OrderRow) : OrderRow :=
  if flwPaidUpdateApplies ref o then
    { o with status := "PAID", provider := some "FLUTTERWAVE",
             provider_tx_id := some txId, provider_ref := some ref,
             paid_at := some now }
  else o

/-- The data the Flutterwave webhook has in hand when it starts
mutating: the order and plan rows it read, and the references. -/
structure FlwCommitData where
  order : OrderRow
  plan : PlanRow
  orderRef : String
  txId : String
deriving DecidableEq, Repr

/-- Steps 1-3 of the Flutterwave webhook (`POST /webhook`): hash
check, payload fields, order load, idempotency check, server-to-server
verification and comparison, plan load.  Every failure acknowledges
with 200 and performs no mutation.  `hashOk` models
`env.FLW_WEBHOOK_HASH` being set and equal to the `verif-hash`
header. -/
def flwWebhookCheck (st : DB) (verify : String → Option VerifyData)
    (hashOk : Bool) (orderRef txId : String) :
    Option FlwCommitData × List ExtCall :=
  if !hashOk then (none, [])
  else if orderRef == "" || txId == "" then (none, [])
  else
    match st.orders.find? (fun o => o.order_ref == orderRef) with
    | none => (none, [])
    | some order =>
      if order.status == "PAID" then (none, [])
      else
        match verify txId with
        | none => (none, [.verifyCall txId none])
        | some vd =>
          if flwVerifyMatches vd orderRef order then
            match st.plans.find? (fun p => p.id == order.plan_id) with
            | some plan => (some ⟨order, plan, orderRef, txId⟩,
                            [.verifyCall txId (some vd)])
            | none => (none, [.verifyCall txId (some vd)])
          else (none, [.verifyCall txId (some vd)])

/-- Steps 4-7 of the Flutterwave webhook: RADIUS activation, the
unguarded mark-paid update, MikroTik auto-login (outcome `mk` =
(status, message) supplied by the router oracle), payment log.  A
throw from `activateVoucher` is caught by the handler's catch, so
nothing after it runs. -/
def flwWebhookCommit (localTime : Int → JsDate) (now : Nat) (mk : String × String)
    (st : DB) (d : FlwCommitData) : DB × List ExtCall :=
  let tr := [ExtCall.activate d.order.username d.order.password
    d.plan.duration_minutes d.plan.speed_down_kbps d.plan.speed_up_kbps
    d.plan.data_mb]
  match activateVoucher localTime (now : Int) d.order.username d.order.password
      d.plan.duration_minutes d.plan.speed_down_kbps d.plan.speed_up_kbps
      d.plan.data_mb none with
  | .error _ => (st, tr)
  | .ok _ =>
    let st := { st with orders := st.orders.map (applyFlwPaid now d.txId d.orderRef) }
    let str2 :=
      if jsTruthyS d.order.customer_mac then
        ({ st with orders := st.orders.map (fun o =>
             if o.order_ref == d.orderRef then
               { o with autologin_status := some mk.1, autologin_message := some mk.2 }
             else o) },
         [ExtCall.mikrotikAuth (d.order.customer_mac.getD "")])
      else (st, ([] : List ExtCall))
    (updatePaymentLog str2.1 d.orderRef "success", tr ++ str2.2)

/-- The whole Flutterwave webhook handler. -/
def flwWebhook (localTime : Int → JsDate) (now : Nat) (mk : String × String)
    (verify : String → Option VerifyData) (hashOk : Bool)
    (orderRef txId : String) (st : DB) : DB × List ExtCall :=
  match flwWebhookCheck st verify hashOk orderRef txId with
  | (none, tr) => (st, tr)
  | (some d, tr) =>
    let r := flwWebhookCommit localTime now mk st d
    (r.1, tr ++ r.2)

/-- `.toUpperCase()`, char by char (the embedding avoids the opaque
byte-level `String.toUpper`). -/
def jsToUpper (s : String) : String := String.mk (s.data.map Char.toUpper)

/-- `transactionStatus && (SUCCEEDED | SUCCESSFUL | SUCCESS)` of the
Yo Payments webhook. -/
def yoStatusIsSuccess (s : String) : Bool :=
  jsToUpper s == "SUCCEEDED" || jsToUpper s == "SUCCESSFUL" || jsToUpper s == "SUCCESS"

/-- JS `a || b` on an optional string. -/
def jsOrS (a : Option String) (b : String) : String :=
  match a with
  | some s => if s == "" then b else s
  | none => b

/-- The row update of the Yo webhook's mark-paid statement
(`UPDATE orders SET status = 'PAID', ... WHERE id = ?`): matched by id
alone, again not conditioned on the current status. -/
def applyYoPaidById (now : Nat) (txid : String) (oid : Nat) (o : OrderRow) : OrderRow :=
  if o.id == oid then
    { o with status := "PAID", provider_tx_id := some txid, paid_at := some now }
  else o

/-- The Yo Payments webhook (`POST /webhook`): finds the order by
provider or order reference and, trusting the *claimed* transaction
status from the inbound payload, activates and marks PAID.  It makes
no server-to-server call at all. -/
def yoWebhook (localTime : Int → JsDate) (now : Nat) (mk : String × String)
    (transactionRef transactionStatus networkRef : Option String)
    (st : DB) : DB × List ExtCall :=
  if !jsTruthyS transactionRef then (st, [])
  else
    let tref := transactionRef.getD ""
    match st.orders.find? (fun o => o.provider_ref == some tref || o.order_ref == tref) with
    | none => (st, [])
    | some order =>
      if order.status == "PAID" then (st, [])
      else
        let isSuccess := match transactionStatus with
          | some s => yoStatusIsSuccess s
          | none => false
        if isSuccess then
          let txid := jsOrS networkRef tref
          match st.plans.find? (fun p => p.id == order.plan_id) with
          | some plan =>
            let tr := [ExtCall.activate order.username order.password
              plan.duration_minutes plan.speed_down_kbps plan.speed_up_kbps
              plan.data_mb]
            match activateVoucher localTime (now : Int) order.username order.password
                plan.duration_minutes plan.speed_down_kbps plan.speed_up_kbps
                plan.data_mb none with
            | .error _ => (st, tr)
            | .ok _ =>
              let st := { st with orders := st.orders.map (applyYoPaidById now txid order.id) }
              let str2 :=
                if jsTruthyS order.customer_mac then
                  ({ st with orders := st.orders.map (fun o =>
                       if o.id == order.id then
                         { o with autologin_status := some mk.1,
                                  autologin_message := some mk.2 }
                       else o) },
                   [ExtCall.mikrotikAuth (order.customer_mac.getD "")])
                else (st, ([] : List ExtCall))
              (updatePaymentLog str2.1 order.order_ref "success", tr ++ str2.2)
          | none =>
            -- no plan row: activation is skipped but the order is still marked PAID
            let st := { st with orders := st.orders.map (applyYoPaidById now txid order.id) }
            (updatePaymentLog st order.order_ref "success", [])
        else if (match transactionStatus with
                 | some s => jsToUpper s == "FAILED"
                 | none => false) then
          (updatePaymentLog
            { st with orders := st.orders.map (fun o =>
                if o.id == order.id then { o with status := "FAILED" } else o) }
            order.order_ref "failed", [])
        else (st, [])

/-- The JSON body of the Yo status-poll endpoint, reduced to the
fields the claims mention. -/
structure YoStatusResult where
  ok : Bool
  status : String
  voucher : Option String
deriving DecidableEq, Repr

/-- The row update of the status poll's mark-paid statement
(`UPDATE orders SET status = 'PAID', ... WHERE order_ref = ?`). -/
def applyYoPaidByRef (now : Nat) (txid ref : String) (o : OrderRow) : OrderRow :=
  if o.order_ref == ref then
    { o with status := "PAID", provider_tx_id := some txid, paid_at := some now }
  else o

/-- The Yo Payments status poll (`GET /status/:orderRef`):
re-verifies with the provider through `checkTransactionStatus` (the
`checkStatus` oracle returns the mapped `paymentStatus` and the
network reference) but compares nothing beyond that status before
activating and marking PAID. -/
def yoStatusPoll (localTime : Int → JsDate) (now : Nat) (mk : String × String)
    (checkStatus : String → String × Option String)
    (orderRef : String) (st : DB) : YoStatusResult × DB × List ExtCall :=
  match st.orders.find? (fun o => o.order_ref == orderRef) with
  | none => (⟨false, "NOT_FOUND", none⟩, st, [])
  | some order =>
    if order.status == "PAID" then
      (⟨true, "PAID", some order.username⟩, st, [])
    else if !jsTruthyS order.provider_ref then
      (⟨true, order.status, none⟩, st, [])
    else
      let pref := order.provider_ref.getD ""
      let cs := checkStatus pref
      let tr0 := [ExtCall.statusCheck pref cs.1]
      if cs.1 == "success" then
        let txid := jsOrS cs.2 pref
        match st.plans.find? (fun p => p.id == order.plan_id) with
        | some plan =>
          let tr := tr0 ++ [ExtCall.activate order.username order.password
            plan.duration_minutes plan.speed_down_kbps plan.speed_up_kbps
            plan.data_mb]
          match activateVoucher localTime (now : Int) order.username order.password
              plan.duration_minutes plan.speed_down_kbps plan.speed_up_kbps
              plan.data_mb none with
          | .error _ => (⟨false, "ERROR", none⟩, st, tr)
          | .ok _ =>
            let st := { st with orders := st.orders.map (applyYoPaidByRef now txid orderRef) }
            let str2 :=
              if jsTruthyS order.customer_mac then
                ({ st with orders := st.orders.map (fun o =>
                     if o.order_ref == orderRef then
                       { o with autologin_status := some mk.1,
                                autologin_message := some mk.2 }
                     else o) },
                 [ExtCall.mikrotikAuth (order.customer_mac.getD "")])
              else (st, ([] : List ExtCall))
            (⟨true, "PAID", some order.username⟩,
             updatePaymentLog str2.1 orderRef "success", tr ++ str2.2)
        | none =>
          -- no plan row: no activation, but the order is still marked PAID
          let st := { st with orders := st.orders.map (applyYoPaidByRef now txid orderRef) }
          (⟨true, "PAID", some order.username⟩,
           updatePaymentLog st orderRef "success", tr0)
      else if cs.1 == "failed" then
        (⟨true, "FAILED", none⟩,
         updatePaymentLog
           { st with orders := st.orders.map (fun o =>
               if o.order_ref == orderRef then { o with status := "FAILED" } else o) }
           orderRef "failed", tr0)
      else
        (⟨true, "PENDING", none⟩, st, tr0)

/-! ### Lemmas about decimal rendering -/

theorem natToDigitsAux_congr : ∀ f1 f2 n, n < f1 → n < f2 →
    natToDigitsAux f1 n = natToDigitsAux f2 n := by
  intro f1
  induction f1 with
  | zero => intro f2 n h1 _; omega
  | succ f ih =>
    intro f2 n h1 h2
    cases f2 with
    | zero => omega
    | succ g =>
      simp only [natToDigitsAux]
      by_cases h10 : n < 10
      · simp [h10]
      · simp only [h10, if_false]
        have hdiv : n / 10 < n := Nat.div_lt_self (by omega) (by omega)
        rw [ih g (n / 10) (by omega) (by omega)]

theorem natToDigits_unfold (n : Nat) :
    natToDigits n = if n < 10 then [natDigitChar n]
      else natToDigits (n / 10) ++ [natDigitChar n] := by
  by_cases h : n < 10
  · simp [natToDigits, natToDigitsAux, h]
  · have hdiv : n / 10 < n := Nat.div_lt_self (by omega) (by omega)
    rw [if_neg h]
    have step : natToDigits n = natToDigitsAux n (n / 10) ++ [natDigitChar n] := by
      simp only [natToDigits, natToDigitsAux]
      rw [if_neg h]
    rw [step, natToDigitsAux_congr n (n / 10 + 1) (n / 10) (by omega) (by omega)]
    rfl

theorem digitVal_natDigitChar (n : Nat) : digitVal (natDigitChar n) = n % 10 := by
  have h : n % 10 < 10 := Nat.mod_lt _ (by omega)
  unfold natDigitChar digitVal
  generalize n % 10 = k at h ⊢
  interval_cases k <;> rfl

theorem isDigitChar_natDigitChar (n : Nat) : isDigitChar (natDigitChar n) = true := by
  have h : n % 10 < 10 := Nat.mod_lt _ (by omega)
  unfold natDigitChar isDigitChar
  generalize n % 10 = k at h ⊢
  interval_cases k <;> rfl

theorem data_append (s t : String) : (s ++ t).data = s.data ++ t.data := by
  cases s; cases t; rfl

theorem pad2_data (n : Nat) (h : n < 100) :
    (pad2 n).data = [natDigitChar (n / 10), natDigitChar n] := by
  by_cases h10 : n < 10
  · have h0 : n / 10 = 0 := by omega
    have : natToDigits n = [natDigitChar n] := by rw [natToDigits_unfold]; simp [h10]
    simp [pad2, natToString, this, data_append, h0]
    rfl
  · have hd : n / 10 < 10 := by omega
    have h1 : natToDigits (n / 10) = [natDigitChar (n / 10)] := by
      rw [natToDigits_unfold]; simp [hd]
    have h2 : natToDigits n = [natDigitChar (n / 10), natDigitChar n] := by
      rw [natToDigits_unfold]; simp [h10, h1]
    simp [pad2, natToString, h2, String.length]

theorem natToDigits_four (y : Nat) (h1 : 1000 ≤ y) (h2 : y ≤ 9999) :
    natToDigits y = [natDigitChar (y / 1000), natDigitChar (y / 100),
                     natDigitChar (y / 10), natDigitChar y] := by
  have e1 : natToDigits y = natToDigits (y / 10) ++ [natDigitChar y] := by
    rw [natToDigits_unfold]; simp; omega
  have e2 : natToDigits (y / 10) = natToDigits (y / 100) ++ [natDigitChar (y / 10)] := by
    rw [natToDigits_unfold, Nat.div_div_eq_div_mul]
    have : ¬ y / 10 < 10 := by omega
    simp [this]
  have e3 : natToDigits (y / 100) = natToDigits (y / 1000) ++ [natDigitChar (y / 100)] := by
    rw [natToDigits_unfold, Nat.div_div_eq_div_mul]
    have : ¬ y / 100 < 10 := by omega
    simp [this]
  have e4 : natToDigits (y / 1000) = [natDigitChar (y / 1000)] := by
    rw [natToDigits_unfold]
    have : y / 1000 < 10 := by omega
    simp [this]
  rw [e1, e2, e3, e4]
  rfl

theorem monthData : ∀ m, m < 12 → ∃ w1 w2 w3,
    (months.getD m "undefined").data = [w1, w2, w3] ∧
    (isWordChar w1 && isWordChar w2 && isWordChar w3) = true ∧
    monthIndex (String.mk [w1, w2, w3]) = some m := by
  intro m hm
  interval_cases m <;> exact ⟨_, _, _, rfl, by decide, by decide⟩

theorem radiusExpiration_data (y mo da hh mi se : Nat) (mw : List Char)
    (hda : da < 100) (hy1 : 1000 ≤ y) (hy2 : y ≤ 9999)
    (hhh : hh < 100) (hmi : mi < 100) (hse : se < 100)
    (hmw : (months.getD mo "undefined").data = mw) :
    (radiusExpiration ⟨y, mo, da, hh, mi, se⟩).data =
      [natDigitChar (da / 10), natDigitChar da, ' '] ++ mw ++
      [' ', natDigitChar (y / 1000), natDigitChar (y / 100),
       natDigitChar (y / 10), natDigitChar y, ' ',
       natDigitChar (hh / 10), natDigitChar hh, ':',
       natDigitChar (mi / 10), natDigitChar mi, ':',
       natDigitChar (se / 10), natDigitChar se] := by
  have hy : (natToString y).data = [natDigitChar (y / 1000), natDigitChar (y / 100),
      natDigitChar (y / 10), natDigitChar y] := by
    show (natToDigits y) = _
    exact natToDigits_four y hy1 hy2
  simp only [radiusExpiration, data_append]
  rw [pad2_data da hda, pad2_data hh hhh, pad2_data mi hmi, pad2_data se hse, hy, hmw]
  simp

theorem matchFixedFormat_encode (y mo da hh mi se : Nat) (w1 w2 w3 : Char)
    (hda : da < 100) (hy1 : 1000 ≤ y) (hy2 : y ≤ 9999)
    (hhh : hh < 100) (hmi : mi < 100) (hse : se < 100)
    (hmw : (months.getD mo "undefined").data = [w1, w2, w3])
    (hw : (isWordChar w1 && isWordChar w2 && isWordChar w3) = true) :
    matchFixedFormat (radiusExpiration ⟨y, mo, da, hh, mi, se⟩) =
      some (da, String.mk [w1, w2, w3], y, hh, mi, se) := by
  have hdata := radiusExpiration_data y mo da hh mi se [w1, w2, w3]
    hda hy1 hy2 hhh hmi hse hmw
  unfold matchFixedFormat
  rw [hdata]
  simp only [List.cons_append, List.nil_append, matchFixedFormatList]
  rw [if_pos]
  · have h2 : ∀ a : Nat, a < 100 → val2 (natDigitChar (a / 10)) (natDigitChar a) = a := by
      intro a ha
      simp only [val2, digitVal_natDigitChar]
      omega
    have h4 : val4 (natDigitChar (y / 1000)) (natDigitChar (y / 100))
        (natDigitChar (y / 10)) (natDigitChar y) = y := by
      simp only [val4, digitVal_natDigitChar]
      omega
    rw [h2 da hda, h2 hh hhh, h2 mi hmi, h2 se hse, h4]
  · simp only [Bool.and_eq_true] at hw ⊢
    simp [isDigitChar_natDigitChar, hw.1.1, hw.1.2, hw.2]

/-- Claim C7: for every timestamp truncated to whole seconds (a local
date with in-range fields and a four-digit year), decoding the encoded
`"DD Mon YYYY HH:MM:SS"` string returns exactly the original fields,
regardless of the generic fallback parser; and a string failing both
the fixed-format parse and the generic fallback parse decodes to
`none` (the embedding is a total function, so no exception can
arise). -/
theorem expiration_codec_roundtrip :
    (∀ (d : JsDate) (fb : String → Option JsDate),
      1 ≤ d.day → d.day ≤ 31 → d.month < 12 → 1000 ≤ d.year → d.year ≤ 9999 →
      d.hour ≤ 23 → d.minute ≤ 59 → d.second ≤ 59 →
      parseRadiusExpiration fb (radiusExpiration d) = some d) ∧
    (∀ (s : String) (fb : String → Option JsDate),
      fixedFormatParse s = none → fb s = none →
      parseRadiusExpiration fb s = none) := by
  constructor
  · rintro ⟨y, mo, da, hh, mi, se⟩ fb h1 h2 h3 h4 h5 h6 h7 h8
    simp only at h1 h2 h3 h4 h5 h6 h7 h8
    obtain ⟨w1, w2, w3, hmw, hw, hidx⟩ := monthData mo h3
    have hmatch := matchFixedFormat_encode y mo da hh mi se w1 w2 w3
      (by omega) h4 h5 (by omega) (by omega) (by omega) hmw hw
    have hfix : fixedFormatParse (radiusExpiration ⟨y, mo, da, hh, mi, se⟩) =
        some ⟨y, mo, da, hh, mi, se⟩ := by
      unfold fixedFormatParse
      rw [hmatch]
      simp only
      rw [hidx]
    have hne : radiusExpiration ⟨y, mo, da, hh, mi, se⟩ ≠ "" := by
      intro h
      have hdata := radiusExpiration_data y mo da hh mi se [w1, w2, w3]
        (by omega) h4 h5 (by omega) (by omega) (by omega) hmw
      rw [h] at hdata
      simp at hdata
    unfold parseRadiusExpiration
    rw [if_neg hne, hfix]
  · intro s fb hfix hfb
    unfold parseRadiusExpiration
    by_cases hs : s = "" <;> simp [hs, hfix, hfb]

theorem expiration_codec_roundtrip_witness :
    parseRadiusExpiration (fun _ => none) (radiusExpiration ⟨2026, 0, 21, 10, 51, 5⟩) =
      some ⟨2026, 0, 21, 10, 51, 5⟩ ∧
    parseRadiusExpiration (fun _ => none) "not a timestamp" = none :=
  ⟨expiration_codec_roundtrip.1 ⟨2026, 0, 21, 10, 51, 5⟩ (fun _ => none)
      (by decide) (by decide) (by decide) (by decide) (by decide)
      (by decide) (by decide) (by decide),
   expiration_codec_roundtrip.2 "not a timestamp" (fun _ => none) (by decide) rfl⟩

/-- Claim C9: MAC normalisation sends `"aa-bb-cc-dd-ee-ff"`,
`"AABBCCDDEEFF"` and `"aa:bb:cc:dd:ee:ff"` to `"AA:BB:CC:DD:EE:FF"`,
and every input that does not reduce to exactly 12 hex digits fails
(returns `none`). -/
theorem mac_normalization :
    normalizeMacAddress "aa-bb-cc-dd-ee-ff" = some "AA:BB:CC:DD:EE:FF" ∧
    normalizeMacAddress "AABBCCDDEEFF" = some "AA:BB:CC:DD:EE:FF" ∧
    normalizeMacAddress "aa:bb:cc:dd:ee:ff" = some "AA:BB:CC:DD:EE:FF" ∧
    ∀ s : String, (s.data.filter isHexChar).length ≠ 12 →
      normalizeMacAddress s = none := by
  refine ⟨by decide, by decide, by decide, ?_⟩
  intro s h
  by_cases hs : s = ""
  · simp [normalizeMacAddress, hs]
  · simp [normalizeMacAddress, hs, h]

theorem mac_normalization_witness :
    (("c0ffee".data.filter isHexChar).length ≠ 12) ∧
    normalizeMacAddress "c0ffee" = none :=
  ⟨by decide, mac_normalization.2.2.2 "c0ffee" (by decide)⟩

/-- `activateVoucher` on fully-given positive parameters: the exact
writes and result object. -/
theorem activateVoucher_pos_eq (lt : Int → JsDate) (now : Int) (u p : String)
    (m d uk x : Int) (hu : u ≠ "") (hp : p ≠ "") (hm : m ≠ 0) (hd : d ≠ 0)
    (huk : uk ≠ 0) (hx : 0 < x) :
    activateVoucher lt now u p (some m) (some d) (some uk) (some x) none =
      .ok ([⟨"radcheck", u, "Cleartext-Password", ":=", .str p⟩,
            ⟨"radreply", u, "Expiration", ":=",
              .str (radiusExpiration (lt (now + m * 60 * 1000)))⟩,
            ⟨"radreply", u, "Session-Timeout", ":=", .num (m * 60)⟩,
            ⟨"radreply", u, "Idle-Timeout", ":=", .num 300⟩,
            ⟨"radreply", u, "Mikrotik-Rate-Limit", ":=",
              .str (intToString d ++ "k/" ++ intToString uk ++ "k")⟩,
            ⟨"radreply", u, "WISPr-Bandwidth-Max-Down", ":=", .num (d * 1000)⟩,
            ⟨"radreply", u, "WISPr-Bandwidth-Max-Up", ":=", .num (uk * 1000)⟩,
            ⟨"radreply", u, "Mikrotik-Total-Limit", ":=", .num (x * 1024 * 1024)⟩],
           ⟨u, m * 60, radiusExpiration (lt (now + m * 60 * 1000)),
            some d, some uk, some x⟩) := by
  simp [activateVoucher, jsTruthyN, hu, hp, hm, hd, huk, hx, hx.ne']

/-- Claim C6: for nonzero speeds, a positive data cap and nonzero
minutes, `activate` derives `sessionSeconds = minutes * 60`, a
combined rate-limit attribute `"{down}k/{up}k"`, WISPr bandwidth
attributes of `kbps * 1000` bits per second, a data cap of
`MB * 1024 * 1024` bytes and a fixed 300-second idle timeout; the
witness instantiates this at `activate("V1","V1",60,2000,1000,500)`,
giving 3600, `"2000k/1000k"`, 2000000, 1000000 and 524288000. -/
theorem activate_attribute_derivation (lt : Int → JsDate) (now : Int) (u p : String)
    (m d uk x : Int) (hu : u ≠ "") (hp : p ≠ "") (hm : m ≠ 0) (hd : d ≠ 0)
    (huk : uk ≠ 0) (hx : 0 < x) :
    ∃ ws res,
      activateVoucher lt now u p (some m) (some d) (some uk) (some x) none =
        .ok (ws, res) ∧
      res.sessionSeconds = m * 60 ∧
      (⟨"radreply", u, "Session-Timeout", ":=", .num (m * 60)⟩ : AttrWrite) ∈ ws ∧
      (⟨"radreply", u, "Idle-Timeout", ":=", .num 300⟩ : AttrWrite) ∈ ws ∧
      (⟨"radreply", u, "Mikrotik-Rate-Limit", ":=",
        .str (intToString d ++ "k/" ++ intToString uk ++ "k")⟩ : AttrWrite) ∈ ws ∧
      (⟨"radreply", u, "WISPr-Bandwidth-Max-Down", ":=", .num (d * 1000)⟩ : AttrWrite) ∈ ws ∧
      (⟨"radreply", u, "WISPr-Bandwidth-Max-Up", ":=", .num (uk * 1000)⟩ : AttrWrite) ∈ ws ∧
      (⟨"radreply", u, "Mikrotik-Total-Limit", ":=",
        .num (x * 1024 * 1024)⟩ : AttrWrite) ∈ ws := by
  refine ⟨_, _, activateVoucher_pos_eq lt now u p m d uk x hu hp hm hd huk hx,
    rfl, ?_, ?_, ?_, ?_, ?_, ?_⟩ <;> simp

theorem activate_attribute_derivation_witness :
    ∃ ws res,
      activateVoucher (fun _ => ⟨2026, 0, 21, 10, 51, 5⟩) 0 "V1" "V1"
        (some 60) (some 2000) (some 1000) (some 500) none = .ok (ws, res) ∧
      res.sessionSeconds = 3600 ∧
      (⟨"radreply", "V1", "Session-Timeout", ":=", .num 3600⟩ : AttrWrite) ∈ ws ∧
      (⟨"radreply", "V1", "Idle-Timeout", ":=", .num 300⟩ : AttrWrite) ∈ ws ∧
      (⟨"radreply", "V1", "Mikrotik-Rate-Limit", ":=", .str "2000k/1000k"⟩ : AttrWrite) ∈ ws ∧
      (⟨"radreply", "V1", "WISPr-Bandwidth-Max-Down", ":=", .num 2000000⟩ : AttrWrite) ∈ ws ∧
      (⟨"radreply", "V1", "WISPr-Bandwidth-Max-Up", ":=", .num 1000000⟩ : AttrWrite) ∈ ws ∧
      (⟨"radreply", "V1", "Mikrotik-Total-Limit", ":=", .num 524288000⟩ : AttrWrite) ∈ ws :=
  activate_attribute_derivation (fun _ => ⟨2026, 0, 21, 10, 51, 5⟩) 0 "V1" "V1"
    60 2000 1000 500 (by decide) (by decide) (by decide) (by decide)
    (by decide) (by decide)

/-- JS truthiness of the `minutes` parameter is false exactly for a
missing or zero value. -/
theorem jsTruthyN_false_iff (mo : Option Int) :
    jsTruthyN mo = false ↔ mo = none ∨ mo = some 0 := by
  cases mo <;> simp [jsTruthyN]

/-- Claim C8 (amended): `activate` fails with the invalid-input error
exactly when username or password is the empty string, or minutes is
missing or zero; a negative minutes value is accepted (the source
guard is the JS truthiness test `!minutes`, which only zero and
missing values fail). -/
theorem activate_invalid_input_characterization (lt : Int → JsDate) (now : Int)
    (u p : String) (mo sd su dm : Option Int) (r : Option String) :
    (∃ e, activateVoucher lt now u p mo sd su dm r = .error e) ↔
      (u = "" ∨ p = "" ∨ mo = none ∨ mo = some 0) := by
  have hguard : (decide (u = "") || decide (p = "") || !jsTruthyN mo) = true ↔
      (u = "" ∨ p = "" ∨ mo = none ∨ mo = some 0) := by
    simp [← jsTruthyN_false_iff, Bool.not_eq_true', or_assoc]
  constructor
  · rintro ⟨e, he⟩
    by_cases hg : (decide (u = "") || decide (p = "") || !jsTruthyN mo) = true
    · exact hguard.mp hg
    · rw [activateVoucher.eq_def, if_neg hg] at he
      simp at he
  · intro h
    refine ⟨"activateVoucher requires username, password, minutes", ?_⟩
    rw [activateVoucher.eq_def, if_pos (hguard.mpr h)]

/-- Claim C8 counterexample: `activate` with minutes = -1 succeeds
(returns `.ok`), so negative minutes are not rejected. -/
theorem activate_negative_minutes_accepted :
    ∃ v, activateVoucher (fun _ => ⟨2026, 0, 21, 10, 51, 5⟩) 0 "V1" "V1"
      (some (-1)) none none none none = .ok v :=
  ⟨_, rfl⟩

/-! ### Fail-open behaviour of the guarded reads (claim C10) -/

/-- A state whose IP `9.9.9.9` carries a permanent persisted block and
whose code `12345` is both an ACTIVE voucher and a used entry of the
usage ledger. -/
def failOpenDemo : DB :=
  { vouchers := [⟨1, "12345", "ACTIVE", none, none, some 1⟩],
    orders := [], plans := [],
    voucher_usage := [⟨"12345", "vouchers", 1, 0, none⟩],
    flagged_ips := [⟨"9.9.9.9", "abuse", 5, 0, none, true⟩],
    radacct := [], payment_logs := [],
    rateLimitStore := [], failedAttemptsStore := [],
    lockedOutIps := [], securityLogs := [] }

/-- Claim C10: the persisted security checks fail open — when the
underlying query throws, `isIpBlocked` reports not blocked,
`checkVoucherUsed` reports not used (whether the ledger query or the
accounting query throws), and `hasActiveSession` reports no session;
consequently a validation with all guarded queries failing succeeds
even on a state whose IP is permanently flagged and whose code is in
the usage ledger. -/
theorem security_checks_fail_open :
    (∀ (now : Nat) (st : DB) (ip : String),
      isIpBlocked true now st ip = { blocked := false, reason := none }) ∧
    (∀ (st : DB) (code : String) (a : Bool),
      checkVoucherUsed true a st code = { used := false, source := none }) ∧
    (∀ (st : DB) (code : String),
      st.voucher_usage.find? (fun u => u.voucher_code == code) = none →
      checkVoucherUsed false true st code = { used := false, source := none }) ∧
    (∀ (st : DB) (code : String),
      hasActiveSession true st code = { active := false }) ∧
    (validateVoucherSecure ⟨true, true, true, true⟩ 1000 failOpenDemo
      "12345" "9.9.9.9").1.valid = true := by
  refine ⟨fun _ _ _ => rfl, fun _ _ _ => rfl, ?_, fun _ _ => rfl, by decide⟩
  intro st code h
  simp [checkVoucherUsed, h]

theorem security_checks_fail_open_witness :
    (failOpenDemo.voucher_usage.find?
      (fun u => u.voucher_code == "99999") = none) ∧
    checkVoucherUsed false true failOpenDemo "99999" =
      { used := false, source := none } :=
  ⟨by decide, security_checks_fail_open.2.2.1 failOpenDemo "99999" (by decide)⟩

/-! ### The security gate after `markUsed` (claim C4) -/

/-- `checkRateLimit` touches only the in-memory rate stores. -/
theorem checkRateLimit_shape (now : Nat) (ip : String) (st : DB) :
    ∃ rl lo, (checkRateLimit now ip st).2 =
      { st with rateLimitStore := rl, lockedOutIps := lo } := by
  unfold checkRateLimit rateWindowStep
  cases halk : alGet st.lockedOutIps ip with
  | none => exact ⟨_, _, rfl⟩
  | some lockoutEnd =>
    by_cases hlt : now < lockoutEnd
    · simp only [hlt, if_true]
      exact ⟨st.rateLimitStore, st.lockedOutIps, rfl⟩
    · simp only [hlt, if_false]
      exact ⟨_, _, rfl⟩

/-- `checkVoucherUsed` reads only tables the rate limiter never
writes. -/
theorem checkVoucherUsed_rate_invariant (u a : Bool) (now : Nat) (ip : String)
    (st : DB) (code : String) :
    checkVoucherUsed u a (checkRateLimit now ip st).2 code =
      checkVoucherUsed u a st code := by
  obtain ⟨rl, lo, h⟩ := checkRateLimit_shape now ip st
  rw [h]; rfl

/-- `hasActiveSession` likewise. -/
theorem hasActiveSession_rate_invariant (q : Bool) (now : Nat) (ip : String)
    (st : DB) (code : String) :
    hasActiveSession q (checkRateLimit now ip st).2 code =
      hasActiveSession q st code := by
  obtain ⟨rl, lo, h⟩ := checkRateLimit_shape now ip st
  rw [h]; rfl

/-- A usage-ledger hit makes `checkVoucherUsed` (with healthy
queries) report the voucher as used. -/
theorem checkVoucherUsed_of_ledger (st : DB) (code : String)
    (h : (st.voucher_usage.find? (fun u => u.voucher_code == code)).isSome) :
    checkVoucherUsed false false st code = { used := true, source := some "usage_table" } := by
  obtain ⟨u, hu⟩ := Option.isSome_iff_exists.mp h
  simp [checkVoucherUsed, hu]

/-- After `markVoucherUsed`, the usage ledger contains the code. -/
theorem markVoucherUsed_ledger (now : Nat) (st : DB) (code source : String)
    (sid : Nat) (mip : Option String) :
    (((markVoucherUsed now st code source sid mip).2).voucher_usage.find?
      (fun u => u.voucher_code == code)).isSome := by
  rw [List.find?_isSome]
  show ∃ x ∈ (if st.voucher_usage.any (fun u => u.voucher_code == code) then
      st.voucher_usage.map (fun u =>
        if u.voucher_code == code then
          { u with used_at := now,
                   used_by_ip := (match mip with | some i => some i | none => u.used_by_ip) }
        else u)
    else st.voucher_usage ++ [⟨code, source, sid, now, mip⟩]), (x.voucher_code == code) = true
  by_cases h : st.voucher_usage.any (fun u => u.voucher_code == code)
  · simp only [h, if_true]
    obtain ⟨u, hu, hcode⟩ := List.any_eq_true.mp h
    refine ⟨_, List.mem_map_of_mem _ hu, ?_⟩
    simp only [hcode, if_true]
  · simp only [h, if_false]
    exact ⟨_, List.mem_append_right _ (List.mem_singleton_self _), by simp⟩

/-- A used result from the ledger check forces the denial branch of
steps 6-8. -/
theorem validateTail_denies_used (f : Faults) (now : Nat) (st : DB)
    (code : String) (sid : Nat) (source : String)
    (h : (checkVoucherUsed f.usageQ f.acctQ st code).used = true) :
    (validateTail f now st code sid source).1.valid = false ∧
    (validateTail f now st code sid source).1.alreadyUsed = true := by
  simp [validateTail, h, emptyVResult]

/-- `validateVoucherSecure` never reports a voucher as valid while the
used-check on the same state reports it used: every other branch of
the gate returns `valid = false`. -/
theorem validate_not_fresh (f : Faults) (now : Nat) (st : DB) (code ip : String)
    (h : (checkVoucherUsed f.usageQ f.acctQ st code).used = true) :
    (validateVoucherSecure f now st code ip).1.valid = false := by
  have h' : (checkVoucherUsed f.usageQ f.acctQ (checkRateLimit now ip st).2 code).used = true := by
    rw [checkVoucherUsed_rate_invariant]; exact h
  simp only [validateVoucherSecure]
  split
  · rfl
  · split
    · rfl
    · split
      · split <;> rfl
      · split
        · rfl
        · split
          · rfl
          · split
            · rfl
            · exact (validateTail_denies_used f now _ code _ _ h').1
      · exact (validateTail_denies_used f now _ code _ _ h').1

/-- The rate limiter leaves the voucher table unchanged. -/
theorem checkRateLimit_vouchers (now : Nat) (ip : String) (st : DB) :
    (checkRateLimit now ip st).2.vouchers = st.vouchers := by
  obtain ⟨rl, lo, h⟩ := checkRateLimit_shape now ip st
  rw [h]

/-- The rate limiter leaves the order table unchanged. -/
theorem checkRateLimit_orders (now : Nat) (ip : String) (st : DB) :
    (checkRateLimit now ip st).2.orders = st.orders := by
  obtain ⟨rl, lo, h⟩ := checkRateLimit_shape now ip st
  rw [h]

/-- Claim C4: once `markVoucherUsed` has run for a code, every
subsequent `validateVoucherSecure` call for the same code is denied
(`valid = false` on every branch of the gate, so the code is never
re-validated as fresh); and whenever the call passes the IP-block and
rate-limit gates and the code still resolves to a voucher or
paid-order row (every voucher row bearing the code now being USED),
the denial carries the `alreadyUsed` security flag. -/
theorem voucher_reuse_rejected (now now' : Nat) (st : DB) (code source : String)
    (sid : Nat) (mip : Option String) (ip : String) :
    ((validateVoucherSecure noFaults now'
        (markVoucherUsed now st code source sid mip).2 code ip).1.valid = false) ∧
    ((isIpBlocked false now' (markVoucherUsed now st code source sid mip).2 ip).blocked = false →
     (checkRateLimit now' ip (markVoucherUsed now st code source sid mip).2).1.allowed = true →
     (((markVoucherUsed now st code source sid mip).2.vouchers.find?
         (fun v => v.code == code)).isSome ∨
       ((markVoucherUsed now st code source sid mip).2.orders.find?
         (orderCodeMatches code)).isSome) →
     (∀ v ∈ (markVoucherUsed now st code source sid mip).2.vouchers,
        v.code = code → v.status = "USED") →
     (validateVoucherSecure noFaults now'
        (markVoucherUsed now st code source sid mip).2 code ip).1.alreadyUsed = true) := by
  set st1 := (markVoucherUsed now st code source sid mip).2 with hst1
  have hledger : (checkVoucherUsed false false st1 code).used = true := by
    rw [checkVoucherUsed_of_ledger st1 code (markVoucherUsed_ledger now st code source sid mip)]
  constructor
  · exact validate_not_fresh noFaults now' st1 code ip hledger
  · intro hb hr hfound hused
    have h' : (checkVoucherUsed noFaults.usageQ noFaults.acctQ
        (checkRateLimit now' ip st1).2 code).used = true := by
      rw [checkVoucherUsed_rate_invariant]; exact hledger
    simp only [validateVoucherSecure, noFaults]
    split
    · next hblk =>
      rw [hb] at hblk
      cases hblk
    · split
      · next hrl =>
        rw [hr] at hrl
        cases hrl
      · rw [checkRateLimit_vouchers, checkRateLimit_orders]
        split
        · next hnone honone =>
          rcases hfound with hf | hf
          · rw [hnone] at hf; cases hf
          · rw [honone] at hf; cases hf
        · next _ _ v heqv =>
          have hvmem := List.mem_of_find?_eq_some heqv
          have hvcode : v.code = code := by
            have := List.find?_some heqv
            simpa using this
          have hvused : v.status = "USED" := hused v hvmem hvcode
          rw [hvused]
          split
          · next hdis => cases hdis
          · split
            · rfl
            · next husedno => simp at husedno
        · next o hvnone hoeq =>
          exact (validateTail_denies_used noFaults now' _ code _ _ h').2

/-- A one-voucher state for exercising the reuse denial. -/
def reuseDemo : DB :=
  { vouchers := [⟨1, "55555", "ACTIVE", none, none, none⟩],
    orders := [], plans := [], voucher_usage := [], flagged_ips := [],
    radacct := [], payment_logs := [], rateLimitStore := [],
    failedAttemptsStore := [], lockedOutIps := [], securityLogs := [] }

theorem voucher_reuse_rejected_witness :
    ((validateVoucherSecure noFaults 10
        (markVoucherUsed 0 reuseDemo "55555" "vouchers" 1 none).2
        "55555" "1.1.1.1").1.valid = false) ∧
    ((validateVoucherSecure noFaults 10
        (markVoucherUsed 0 reuseDemo "55555" "vouchers" 1 none).2
        "55555" "1.1.1.1").1.alreadyUsed = true) :=
  ⟨(voucher_reuse_rejected 0 10 reuseDemo "55555" "vouchers" 1 none "1.1.1.1").1,
   (voucher_reuse_rejected 0 10 reuseDemo "55555" "vouchers" 1 none "1.1.1.1").2
     (by decide) (by decide) (by decide) (by decide)⟩

/-! ### Lockout escalation (claim C5) -/

/-- The rate limiter leaves the failed-attempt store unchanged. -/
theorem checkRateLimit_failedStore (now : Nat) (ip : String) (st : DB) :
    (checkRateLimit now ip st).2.failedAttemptsStore = st.failedAttemptsStore := by
  obtain ⟨rl, lo, h⟩ := checkRateLimit_shape now ip st
  rw [h]

/-- `trackFailedAttempt` at an in-window entry one short of the
threshold (or beyond): the attempt locks the IP out. -/
theorem trackFailedAttempt_locks (now : Nat) (ip : String) (st : DB) (e : RateEntry)
    (he : alGet st.failedAttemptsStore ("failed_" ++ ip) = some e)
    (hw : ¬ now - e.windowStart > LOCKOUT_WINDOW_MS)
    (hc : LOCKOUT_THRESHOLD ≤ e.count + 1) :
    trackFailedAttempt now ip st =
      (⟨true, e.count + 1⟩,
       { st with failedAttemptsStore := alSet st.failedAttemptsStore ("failed_" ++ ip)
                   ⟨e.windowStart, e.count + 1⟩,
                 lockedOutIps := alSet st.lockedOutIps ip (now + LOCKOUT_DURATION_MS) }) := by
  simp only [trackFailedAttempt]
  rw [he]
  simp only [hw, if_false]
  rw [if_pos hc]

/-- `flagIpAddress` leaves a block entry for the IP expiring
`blockDurationMinutes` minutes later. -/
theorem flagIpAddress_mem (now : Nat) (ip reason : String) (dur : Nat) (st : DB) :
    ∃ f ∈ (flagIpAddress now ip reason dur st).flagged_ips,
      f.ip_address = ip ∧ f.blocked_until = some (now + dur * 60 * 1000) := by
  simp only [flagIpAddress, logSecurityEvent]
  by_cases h : st.flagged_ips.any (fun f => f.ip_address == ip)
  · simp only [h, if_true]
    obtain ⟨f, hf, hfe⟩ := List.any_eq_true.mp h
    refine ⟨_, List.mem_map_of_mem _ hf, ?_, ?_⟩
    · simp only [hfe, if_true]
      simpa using hfe
    · simp only [hfe, if_true]
  · simp only [h, if_false]
    exact ⟨_, List.mem_append_right _ (List.mem_singleton_self _), rfl, rfl⟩

/-- Once a block entry is persisted, `isIpBlocked` reports the IP
blocked at any time before its expiry. -/
theorem isIpBlocked_after_flag (now now' : Nat) (ip reason : String) (dur : Nat)
    (st : DB) (h2 : now' < now + dur * 60 * 1000) :
    (isIpBlocked false now' (flagIpAddress now ip reason dur st) ip).blocked = true := by
  obtain ⟨f, hmem, hip, hbu⟩ := flagIpAddress_mem now ip reason dur st
  simp only [isIpBlocked, Bool.false_eq_true, if_false]
  cases hfind : (flagIpAddress now ip reason dur st).flagged_ips.find?
      (flaggedMatches now' ip) with
  | none =>
    exfalso
    rw [List.find?_eq_none] at hfind
    exact absurd (by simp [flaggedMatches, hip, hbu, h2] : flaggedMatches now' ip f = true)
      (by simpa using hfind f hmem)
  | some g => simp [hfind]

/-- A blocked IP is denied at the very first step of the gate. -/
theorem validate_denies_blocked (f : Faults) (now : Nat) (st : DB) (code ip : String)
    (h : (isIpBlocked f.blockQ now st ip).blocked = true) :
    (validateVoucherSecure f now st code ip).1.valid = false := by
  simp only [validateVoucherSecure]
  rw [if_pos h]
  rfl

/-- Claim C5: an IP whose in-window failed-attempt count reaches the
configured threshold on a failed validation is locked out by that very
attempt — the attempt is denied with the block flag, a block entry for
the IP is persisted in `flagged_ips` expiring 60 minutes later, and
any subsequent validation attempt from that IP before the expiry is
denied regardless of which voucher code it presents. -/
theorem lockout_escalation (now now' : Nat) (st : DB) (code code' ip : String)
    (e : RateEntry)
    (hb : (isIpBlocked false now st ip).blocked = false)
    (hr : (checkRateLimit now ip st).1.allowed = true)
    (hvn : st.vouchers.find? (fun v => v.code == code) = none)
    (hon : st.orders.find? (orderCodeMatches code) = none)
    (he : alGet st.failedAttemptsStore ("failed_" ++ ip) = some e)
    (hw : ¬ now - e.windowStart > LOCKOUT_WINDOW_MS)
    (hc : LOCKOUT_THRESHOLD ≤ e.count + 1)
    (hnow2 : now' < now + 60 * 60 * 1000) :
    (validateVoucherSecure noFaults now st code ip).1.valid = false ∧
    (validateVoucherSecure noFaults now st code ip).1.ipBlocked = true ∧
    (∃ fl ∈ (validateVoucherSecure noFaults now st code ip).2.flagged_ips,
       fl.ip_address = ip ∧ fl.blocked_until = some (now + 60 * 60 * 1000)) ∧
    (validateVoucherSecure noFaults now'
       (validateVoucherSecure noFaults now st code ip).2 code' ip).1.valid = false := by
  have hb' : ¬ (isIpBlocked noFaults.blockQ now st ip).blocked = true := by
    rw [show noFaults.blockQ = false from rfl, hb]; simp
  have hr' : ¬ (!(checkRateLimit now ip st).1.allowed) = true := by
    rw [hr]; simp
  have hvn' : (checkRateLimit now ip st).2.vouchers.find?
      (fun v => v.code == code) = none := by
    rw [checkRateLimit_vouchers]; exact hvn
  have hon' : (checkRateLimit now ip st).2.orders.find?
      (orderCodeMatches code) = none := by
    rw [checkRateLimit_orders]; exact hon
  have he' : alGet (checkRateLimit now ip st).2.failedAttemptsStore
      ("failed_" ++ ip) = some e := by
    rw [checkRateLimit_failedStore]; exact he
  have htrack := trackFailedAttempt_locks now ip (checkRateLimit now ip st).2 e he' hw hc
  have heq : validateVoucherSecure noFaults now st code ip =
      ({ emptyVResult with
           ipBlocked := true,
           message := "Too many failed attempts. Access temporarily blocked." },
       flagIpAddress now ip "Too many failed voucher validation attempts" 60
         (logSecurityEvent (trackFailedAttempt now ip (checkRateLimit now ip st).2).2
           "validation_failed" "critical")) := by
    simp only [validateVoucherSecure]
    rw [if_neg hb', if_neg hr', hvn', hon']
    simp only [htrack]
    simp
  rw [heq]
  refine ⟨rfl, rfl, flagIpAddress_mem now ip _ 60 _, ?_⟩
  exact validate_denies_blocked noFaults now' _ code' ip
    (isIpBlocked_after_flag now now' ip _ 60 _ hnow2)

/-- A state one failed attempt short of the lockout threshold for IP
`7.7.7.7`, holding one perfectly valid voucher `77777`. -/
def lockoutDemo : DB :=
  { vouchers := [⟨1, "77777", "ACTIVE", none, none, none⟩],
    orders := [], plans := [], voucher_usage := [], flagged_ips := [],
    radacct := [], payment_logs := [], rateLimitStore := [],
    failedAttemptsStore := [("failed_7.7.7.7", ⟨0, 29⟩)],
    lockedOutIps := [], securityLogs := [] }

theorem lockout_escalation_witness :
    (validateVoucherSecure noFaults 0 lockoutDemo "00000" "7.7.7.7").1.valid = false ∧
    (validateVoucherSecure noFaults 0 lockoutDemo "00000" "7.7.7.7").1.ipBlocked = true ∧
    (∃ fl ∈ (validateVoucherSecure noFaults 0 lockoutDemo "00000" "7.7.7.7").2.flagged_ips,
       fl.ip_address = "7.7.7.7" ∧ fl.blocked_until = some (0 + 60 * 60 * 1000)) ∧
    (validateVoucherSecure noFaults 5
       (validateVoucherSecure noFaults 0 lockoutDemo "00000" "7.7.7.7").2
       "77777" "7.7.7.7").1.valid = false :=
  lockout_escalation 0 5 lockoutDemo "00000" "77777" "7.7.7.7" ⟨0, 29⟩
    (by decide) (by decide) (by decide) (by decide) (by decide)
    (by decide) (by decide) (by decide)

/-! ### The unguarded PAID transition (claim C1) -/

/-- A pending 500 UGX order awaiting confirmation. -/
def raceOrder : OrderRow :=
  ⟨1, "ORD_X", "PENDING", 500, 1, "11111", "11111",
   none, none, none, none, none, none, none, none⟩

/-- The plan the order references. -/
def racePlan : PlanRow := ⟨1, "Hourly", some 60, some 2000, some 1000, some 500⟩

/-- The database holding just that pending order and its plan. -/
def raceDemo : DB :=
  { vouchers := [], orders := [raceOrder], plans := [racePlan],
    voucher_usage := [], flagged_ips := [], radacct := [],
    payment_logs := [⟨"ORD_X", "pending"⟩], rateLimitStore := [],
    failedAttemptsStore := [], lockedOutIps := [], securityLogs := [] }

/-- A fixed local-time conversion for the demos. -/
def raceLT : Int → JsDate := fun _ => ⟨2026, 0, 21, 10, 0, 0⟩

/-- The provider's verification endpoint: transaction `77` is a
successful 500 UGX payment referencing `ORD_X`. -/
def raceVerify : String → Option VerifyData :=
  fun t => if t == "77" then some ⟨"successful", "ORD_X", "UGX", 500⟩ else none

/-- Claim C1 evaluated at the failing input: two concurrent webhook
confirmations for the same PENDING order both pass the read-and-verify
phase against the same initial state; interleaved so that both commit,
each performs the RADIUS activation (two `activate` calls in the
combined trace), because the mark-paid statement's WHERE clause
(`flwPaidUpdateApplies`) matches on the order reference alone and
still applies to an already-PAID row — unlike the conditional update
the spec requires (`guardedPaidUpdateApplies`), which an already-PAID
row fails. -/
theorem flw_unguarded_paid_race :
    ∃ d, (flwWebhookCheck raceDemo raceVerify true "ORD_X" "77").1 = some d ∧
      (flwWebhookCheck raceDemo raceVerify true "ORD_X" "77").1 = some d ∧
      (((flwWebhookCommit raceLT 100 ("skipped", "") raceDemo d).1.orders.find?
          (fun o => o.order_ref == "ORD_X")).map (fun o => o.status) = some "PAID") ∧
      (((flwWebhookCommit raceLT 100 ("skipped", "") raceDemo d).2 ++
        (flwWebhookCommit raceLT 200 ("skipped", "")
          (flwWebhookCommit raceLT 100 ("skipped", "") raceDemo d).1 d).2).filter
         ExtCall.isActivate).length = 2 ∧
      flwPaidUpdateApplies "ORD_X" { raceOrder with status := "PAID" } = true ∧
      guardedPaidUpdateApplies "ORD_X" { raceOrder with status := "PAID" } = false := by
  exact ⟨⟨raceOrder, racePlan, "ORD_X", "77"⟩, by decide, by decide, by decide,
    by decide, by decide, by decide⟩

/-! ### Verification before mutation (claim C2) -/

/-- When the Flutterwave webhook's check phase hands data to the
commit phase, the order was loaded and not yet PAID, the provider
verification returned data matching the order on status, reference,
currency and amount, the plan was loaded, and the verification call is
on record. -/
theorem flwWebhookCheck_some {st : DB} {verify : String → Option VerifyData}
    {hashOk : Bool} {orderRef txId : String} {d : FlwCommitData} {tr : List ExtCall}
    (h : flwWebhookCheck st verify hashOk orderRef txId = (some d, tr)) :
    st.orders.find? (fun o => o.order_ref == orderRef) = some d.order ∧
    d.order.status ≠ "PAID" ∧
    st.plans.find? (fun p => p.id == d.order.plan_id) = some d.plan ∧
    d.orderRef = orderRef ∧ d.txId = txId ∧
    ∃ vd, verify txId = some vd ∧ flwVerifyMatches vd orderRef d.order = true ∧
      tr = [.verifyCall txId (some vd)] := by
  unfold flwWebhookCheck at h
  split at h
  · simp at h
  · split at h
    · simp at h
    · split at h
      · simp at h
      · next order horder =>
        split at h
        · simp at h
        · next hpaid =>
          split at h
          · simp at h
          · next vd hvd =>
            split at h
            · next hmatch =>
              split at h
              · next plan hplan =>
                simp only [Prod.mk.injEq, Option.some.injEq] at h
                obtain ⟨h1, h2⟩ := h
                subst h1
                subst h2
                exact ⟨horder, by simpa using hpaid, hplan, rfl, rfl, vd, hvd, hmatch, rfl⟩
              · simp at h
            · simp at h

/-- The check phase only ever records verification calls, never an
activation. -/
theorem flwWebhookCheck_trace_no_activate (st : DB) (verify : String → Option VerifyData)
    (hashOk : Bool) (orderRef txId : String) :
    ∀ c ∈ (flwWebhookCheck st verify hashOk orderRef txId).2, c.isActivate = false := by
  unfold flwWebhookCheck
  repeat' split
  all_goals simp [ExtCall.isActivate]

/-- When the check phase rejects, the webhook acknowledges without
touching the database. -/
theorem flwWebhook_of_check_none (lt : Int → JsDate) (now : Nat) (mk : String × String)
    {st : DB} {verify : String → Option VerifyData} {hashOk : Bool} {orderRef txId : String}
    (h : (flwWebhookCheck st verify hashOk orderRef txId).1 = none) :
    flwWebhook lt now mk verify hashOk orderRef txId st =
      (st, (flwWebhookCheck st verify hashOk orderRef txId).2) := by
  unfold flwWebhook
  cases hc : flwWebhookCheck st verify hashOk orderRef txId with
  | mk fst snd =>
    rw [hc] at h
    simp only at h
    subst h
    rfl

/-- A verification mismatch (or failure) for the loaded order makes
the check phase reject. -/
theorem flwWebhookCheck_none_of_mismatch {st : DB} {verify : String → Option VerifyData}
    {hashOk : Bool} {orderRef txId : String} {order : OrderRow}
    (horder : st.orders.find? (fun o => o.order_ref == orderRef) = some order)
    (hmis : ∀ vd, verify txId = some vd → flwVerifyMatches vd orderRef order = false) :
    (flwWebhookCheck st verify hashOk orderRef txId).1 = none := by
  cases hc : flwWebhookCheck st verify hashOk orderRef txId with
  | mk fst snd =>
    cases fst with
    | none => rfl
    | some d =>
      exfalso
      obtain ⟨hfind, _, _, _, _, vd, hvd, hmatch, _⟩ := flwWebhookCheck_some hc
      rw [horder] at hfind
      injection hfind with hfind
      rw [← hfind] at hmatch
      rw [hmis vd hvd] at hmatch
      cases hmatch

/-- Claim C2 (amended): the Flutterwave webhook satisfies the claimed
discipline — any run that mutates the order table first obtained
provider-verified data matching the order's expected status,
reference, currency and amount (the verification call is in the
trace), and a failed or mismatching verification leaves the state
untouched with no RADIUS activation.  (The yo-payments channels do
not: see the counterexample.) -/
theorem flw_webhook_verification_guard (lt : Int → JsDate) (now : Nat)
    (mk : String × String) (verify : String → Option VerifyData) (hashOk : Bool)
    (orderRef txId : String) (st : DB) :
    ((flwWebhook lt now mk verify hashOk orderRef txId st).1.orders ≠ st.orders →
      ∃ (d : FlwCommitData) (vd : VerifyData),
        st.orders.find? (fun o => o.order_ref == orderRef) = some d.order ∧
        d.order.status ≠ "PAID" ∧ verify txId = some vd ∧
        flwVerifyMatches vd orderRef d.order = true ∧
        ExtCall.verifyCall txId (some vd) ∈
          (flwWebhook lt now mk verify hashOk orderRef txId st).2) ∧
    (∀ order, st.orders.find? (fun o => o.order_ref == orderRef) = some order →
      (∀ vd, verify txId = some vd → flwVerifyMatches vd orderRef order = false) →
      (flwWebhook lt now mk verify hashOk orderRef txId st).1 = st ∧
      ∀ c ∈ (flwWebhook lt now mk verify hashOk orderRef txId st).2,
        c.isActivate = false) := by
  constructor
  · intro hdiff
    cases hc : flwWebhookCheck st verify hashOk orderRef txId with
    | mk fst tr0 =>
      cases fst with
      | none =>
        exfalso
        apply hdiff
        rw [flwWebhook_of_check_none lt now mk (by rw [hc])]
      | some d =>
        obtain ⟨hfind, hpaid, hplan, hre, htx, vd, hvd, hmatch, htr⟩ :=
          flwWebhookCheck_some hc
        refine ⟨d, vd, hfind, hpaid, hvd, hmatch, ?_⟩
        unfold flwWebhook
        rw [hc]
        subst htr
        simp
  · intro order horder hmis
    have hnone := @flwWebhookCheck_none_of_mismatch st verify hashOk orderRef txId
      order horder hmis
    rw [flwWebhook_of_check_none lt now mk hnone]
    exact ⟨rfl, flwWebhookCheck_trace_no_activate st verify hashOk orderRef txId⟩

theorem flw_webhook_verification_guard_witness :
    (flwWebhook raceLT 100 ("skipped", "")
      (fun _ => some ⟨"successful", "ORD_X", "UGX", 999⟩) true "ORD_X" "77"
      raceDemo).1 = raceDemo ∧
    ∀ c ∈ (flwWebhook raceLT 100 ("skipped", "")
      (fun _ => some ⟨"successful", "ORD_X", "UGX", 999⟩) true "ORD_X" "77"
      raceDemo).2, c.isActivate = false :=
  (flw_webhook_verification_guard raceLT 100 ("skipped", "")
    (fun _ => some ⟨"successful", "ORD_X", "UGX", 999⟩) true "ORD_X" "77"
    raceDemo).2 raceOrder (by decide)
    (by intro vd hv; injection hv with hv; subst hv; decide)

/-- A pending Yo Payments order with a provider reference. -/
def yoOrder : OrderRow :=
  ⟨2, "YO_X", "PENDING", 500, 1, "22222", "22222",
   none, none, some "YOREF", none, none, none, none, none⟩

def yoDemo : DB :=
  { vouchers := [], orders := [yoOrder], plans := [racePlan],
    voucher_usage := [], flagged_ips := [], radacct := [],
    payment_logs := [⟨"YO_X", "pending"⟩], rateLimitStore := [],
    failedAttemptsStore := [], lockedOutIps := [], securityLogs := [] }

/-- A pending Yo Payments order over an amount (999999 UGX) that the
provider cannot have collected for this plan. -/
def yoOrderHuge : OrderRow :=
  ⟨3, "YO_Y", "PENDING", 999999, 1, "44444", "44444",
   none, none, some "YOREF2", none, none, none, none, none⟩

def yoDemoHuge : DB :=
  { vouchers := [], orders := [yoOrderHuge], plans := [racePlan],
    voucher_usage := [], flagged_ips := [], radacct := [],
    payment_logs := [⟨"YO_Y", "pending"⟩], rateLimitStore := [],
    failedAttemptsStore := [], lockedOutIps := [], securityLogs := [] }

/-- Claim C2 counterexample: the Yo Payments webhook marks the order
PAID and runs the RADIUS activation on the strength of the inbound
payload's claimed status alone — its trace contains the activation but
no server-to-server re-verification of any kind; and the Yo status
poll transitions to PAID whenever the provider status query says
success, comparing no reference, currency or amount — here it pays out
an order whose expected amount is 999999 UGX. -/
theorem yo_confirmation_skips_verification :
    (((yoWebhook raceLT 100 ("skipped", "") (some "YOREF") (some "SUCCEEDED") none
        yoDemo).1.orders.find? (fun o => o.order_ref == "YO_X")).map
      (fun o => o.status) = some "PAID") ∧
    ((yoWebhook raceLT 100 ("skipped", "") (some "YOREF") (some "SUCCEEDED") none
        yoDemo).2.filter ExtCall.isActivate).length = 1 ∧
    ((yoWebhook raceLT 100 ("skipped", "") (some "YOREF") (some "SUCCEEDED") none
        yoDemo).2.filter ExtCall.isReverify).length = 0 ∧
    (((yoStatusPoll raceLT 100 ("skipped", "") (fun _ => ("success", none)) "YO_Y"
        yoDemoHuge).2.1.orders.find? (fun o => o.order_ref == "YO_Y")).map
      (fun o => o.status) = some "PAID") := by
  exact ⟨by decide, by decide, by decide, by decide⟩

/-! ### Lifecycle of PAID and FAILED orders (claim C3) -/

/-- An order that has already been paid. -/
def paidOrder : OrderRow :=
  ⟨4, "ORD_P", "PAID", 500, 1, "33333", "33333",
   none, none, none, some 50, none, none, none, none⟩

def paidDemo : DB :=
  { vouchers := [], orders := [paidOrder], plans := [racePlan],
    voucher_usage := [], flagged_ips := [], radacct := [],
    payment_logs := [], rateLimitStore := [], failedAttemptsStore := [],
    lockedOutIps := [], securityLogs := [] }

/-- An order whose payment has already failed. -/
def failedOrder : OrderRow :=
  ⟨5, "YO_F", "FAILED", 500, 1, "44445", "44445",
   none, none, none, none, none, none, none, none⟩

def failedDemo : DB :=
  { vouchers := [], orders := [failedOrder], plans := [racePlan],
    voucher_usage := [], flagged_ips := [], radacct := [],
    payment_logs := [], rateLimitStore := [], failedAttemptsStore := [],
    lockedOutIps := [], securityLogs := [] }

/-- Claim C3 counterexample: PAID and FAILED are not terminal —
`markVoucherUsed` advances a PAID order to COMPLETED when its voucher
is redeemed, and a success confirmation arriving for a FAILED order
re-transitions it to PAID (the idempotency check only skips orders
already PAID). -/
theorem paid_failed_not_terminal :
    (((markVoucherUsed 60 paidDemo "33333" "orders" 4 none).2.orders.find?
        (fun o => o.id == 4)).map (fun o => o.status) = some "COMPLETED") ∧
    (((yoWebhook raceLT 100 ("skipped", "") (some "YO_F") (some "SUCCEEDED") none
        failedDemo).1.orders.find? (fun o => o.id == 5)).map
      (fun o => o.status) = some "PAID") :=
  ⟨by decide, by decide⟩

/-- An already-PAID order stops the Flutterwave check phase before any
external call. -/
theorem flwWebhookCheck_paid {st : DB} {verify : String → Option VerifyData}
    {hashOk : Bool} {orderRef txId : String} {order : OrderRow}
    (h : st.orders.find? (fun o => o.order_ref == orderRef) = some order)
    (hp : order.status = "PAID") :
    flwWebhookCheck st verify hashOk orderRef txId = (none, []) := by
  unfold flwWebhookCheck
  split
  · rfl
  · split
    · rfl
    · rw [h]
      simp [hp]

/-- Claim C3 (amended): what does hold of the lifecycle is the
idempotency half — a confirmation signal for an already-PAID order is
a no-op on every channel: the Flutterwave webhook and the Yo webhook
acknowledge without touching the state or making any external call,
and the Yo status poll returns the PAID success payload (with the
voucher code) while leaving the state untouched. -/
theorem already_paid_confirmation_noop (lt : Int → JsDate) (now : Nat)
    (mk : String × String) (st : DB) :
    (∀ (verify : String → Option VerifyData) (hashOk : Bool)
       (orderRef txId : String) (order : OrderRow),
       st.orders.find? (fun o => o.order_ref == orderRef) = some order →
       order.status = "PAID" →
       flwWebhook lt now mk verify hashOk orderRef txId st = (st, [])) ∧
    (∀ (tref : String) (tstat nref : Option String) (order : OrderRow),
       st.orders.find? (fun o => o.provider_ref == some tref || o.order_ref == tref) =
         some order →
       order.status = "PAID" →
       yoWebhook lt now mk (some tref) tstat nref st = (st, [])) ∧
    (∀ (cs : String → String × Option String) (orderRef : String) (order : OrderRow),
       st.orders.find? (fun o => o.order_ref == orderRef) = some order →
       order.status = "PAID" →
       yoStatusPoll lt now mk cs orderRef st =
         (⟨true, "PAID", some order.username⟩, st, [])) := by
  refine ⟨?_, ?_, ?_⟩
  · intro verify hashOk orderRef txId order h hp
    rw [flwWebhook_of_check_none lt now mk
      (by rw [flwWebhookCheck_paid h hp]), flwWebhookCheck_paid h hp]
  · intro tref tstat nref order h hp
    unfold yoWebhook
    split
    · rfl
    · simp only [Option.getD_some]
      rw [h]
      simp [hp]
  · intro cs orderRef order h hp
    unfold yoStatusPoll
    rw [h]
    simp [hp]

theorem already_paid_confirmation_noop_witness :
    flwWebhook raceLT 100 ("skipped", "") raceVerify true "ORD_P" "77" paidDemo =
      (paidDemo, []) ∧
    yoWebhook raceLT 100 ("skipped", "") (some "ORD_P") (some "SUCCEEDED") none
      paidDemo = (paidDemo, []) ∧
    yoStatusPoll raceLT 100 ("skipped", "") (fun _ => ("success", none)) "ORD_P"
      paidDemo = (⟨true, "PAID", some "33333"⟩, paidDemo, []) :=
  ⟨(already_paid_confirmation_noop raceLT 100 ("skipped", "") paidDemo).1
     raceVerify true "ORD_P" "77" paidOrder (by decide) (by decide),
   (already_paid_confirmation_noop raceLT 100 ("skipped", "") paidDemo).2.1
     "ORD_P" (some "SUCCEEDED") none paidOrder (by decide) (by decide),
   (already_paid_confirmation_noop raceLT 100 ("skipped", "") paidDemo).2.2
     (fun _ => ("success", none)) "ORD_P" paidOrder (by decide) (by decide)⟩

end Bula
